import Mathlib

/-!
# IMMERZO lead-intake backend — verification of the OTP / inquiry workflow

Shallow embedding of `src/main.py` (FastAPI handlers) and `src/schemas.py`
(pydantic schemas).  The document store (`database.py`: `db`,
`create_document`) is not part of the sources, so its contract is modelled
from the specification (§4.1, §3): an insert tags the document with a
creation timestamp and returns a fresh store-assigned identifier.

Modelling choices:
* time is `Nat` (seconds); the 10-minute OTP TTL is `600`;
* `datetime` comparisons become `Nat` comparisons; the filename timestamp
  `strftime('%Y%m%d%H%M%S')` is rendered as `toString now`;
* the float field `investment_capacity_lakhs` is modelled as `Int`: the code
  never computes with it, it is only validated (not at all, as it turns out)
  and stored, so the embedding is exact on integral inputs;
* MongoDB's `sort("created_at", -1).limit(1)` is `latestRec` on the filtered
  list, the later-inserted record winning ties;
* `update_one` filters on `_id`, which the store keeps unique (identifiers
  are assigned from a counter), so a pointwise map that touches exactly the
  records with that identifier updates exactly the one matching document;
* handlers are state transformers `Store → ... → Except HTTPException resp × Store`;
  an `HTTPException` raised before any write returns the input store unchanged.
-/

namespace Immerzo

/-- One document of the `otprequest` collection (`start_otp`, main.py:92-98;
`created_at`/`updated_at` are store-assigned per spec §3). -/
structure OtpRec where
  id : Nat
  phone : String
  purpose : String
  code : String
  verified : Bool
  expires_at : Nat
  created_at : Nat
  updated_at : Option Nat
deriving Repr, DecidableEq

/-- Request body of `POST /api/otp/start` (main.py:21-23). -/
structure OTPStartRequest where
  phone : String
  purpose : String
deriving Repr, DecidableEq

/-- The pydantic constraints on `OTPStartRequest`: `phone` 10-15 chars,
`purpose` matching `^(franchise|mall)$` (main.py:22-23). -/
def validStartOtp (req : OTPStartRequest) : Prop :=
  10 ≤ req.phone.length ∧ req.phone.length ≤ 15 ∧
    (req.purpose = "franchise" ∨ req.purpose = "mall")

/-- Request body of `POST /api/otp/verify` (main.py:25-28): no constraints. -/
structure OTPVerifyRequest where
  phone : String
  purpose : String
  code : String
deriving Repr, DecidableEq

/-- Request body of `POST /api/franchise` (main.py:30-38).  Note: plain `str`
for `city_tier`, no lower bound on `investment_capacity_lakhs` — the
constrained `FranchiseInquiry` schema of schemas.py is NOT this model. -/
structure FranchisePayload where
  full_name : String
  email : String
  phone : String
  investment_capacity_lakhs : Int
  preferred_cities : String
  city_tier : String
  message : Option String
  otp_code : Option String
deriving Repr, DecidableEq

/-- An uploaded file part: original filename and raw content bytes. -/
structure UploadedFile where
  filename : String
  content : List Nat
deriving Repr, DecidableEq

/-- The multipart form of `POST /api/mall` (main.py:146-155). -/
structure MallForm where
  contact_name : String
  email : String
  phone : String
  mall_name : String
  location_city : String
  available_space_sqft : Int
  message : Option String
  otp_code : Option String
  floorplan : Option UploadedFile
deriving Repr, DecidableEq

/-- File metadata `{"filename", "path", "size"}` (main.py:173). -/
structure FileMeta where
  filename : String
  path : String
  size : Nat
deriving Repr, DecidableEq

/-- One document of the `franchiseinquiry` collection: `payload.model_dump()`
persisted raw (main.py:141), plus the store-assigned id and timestamp. -/
structure FranchiseDoc where
  id : Nat
  created_at : Nat
  payload : FranchisePayload
deriving Repr, DecidableEq

/-- One document of the `mallinquiry` collection: the `data` dict of
main.py:175-184 (note: no `otp_code` field), plus store id and timestamp. -/
structure MallDoc where
  id : Nat
  created_at : Nat
  contact_name : String
  email : String
  phone : String
  mall_name : String
  location_city : String
  available_space_sqft : Int
  message : Option String
  floorplan : Option FileMeta
deriving Repr, DecidableEq

/-- Observable side effects, in the order they happen, used to state
ordering properties (file persisted before the inquiry document). -/
inductive Event where
  | fileWrite (path : String) (size : Nat)
  | docCreate (collection : String)
deriving Repr, DecidableEq

/-- The whole persistent state: the three collections (spec §6), the local
upload directory, the effect trace, and the store's id counter. -/
structure Store where
  otps : List OtpRec
  franchiseDocs : List FranchiseDoc
  mallDocs : List MallDoc
  files : List (String × List Nat)
  events : List Event
  nextId : Nat
deriving Repr, DecidableEq

/-- `HTTPException(status_code=..., detail=...)`. -/
structure HTTPException where
  status_code : Nat
  detail : String
deriving Repr, DecidableEq

/-- Response of `start_otp` (main.py:100). -/
structure StartOtpResponse where
  success : Bool
  message : String
  demo_code : String
deriving Repr, DecidableEq

/-- Response of `verify_otp` (main.py:114). -/
structure VerifyResponse where
  success : Bool
deriving Repr, DecidableEq

/-- Response of `submit_franchise` (main.py:142). -/
structure FranchiseResponse where
  success : Bool
  id : Nat
deriving Repr, DecidableEq

/-- Response of `submit_mall` (main.py:186). -/
structure MallResponse where
  success : Bool
  id : Nat
  file : Option FileMeta
deriving Repr, DecidableEq

/-- The Mongo filter `{"phone": phone, "purpose": purpose}` (main.py:105). -/
def keyMatch (r : OtpRec) (phone purpose : String) : Bool :=
  r.phone = phone && r.purpose = purpose

/-- `sort("created_at", -1).limit(1)` on a fetched list: the record with the
greatest `created_at`, the later-inserted one winning ties. -/
def latestRec : List OtpRec → Option OtpRec
  | [] => none
  | r :: rs =>
    match latestRec rs with
    | none => some r
    | some s => if s.created_at ≥ r.created_at then some s else some r

/-- The single most-recently-created `otprequest` record for a
`(phone, purpose)` key (main.py:105). -/
def latestMatch (s : Store) (phone purpose : String) : Option OtpRec :=
  latestRec (s.otps.filter (fun r => keyMatch r phone purpose))

/-- Python truthiness of an `Optional[str]`: `None` and `""` are falsy
(the `if payload.otp_code:` gates, main.py:136 and main.py:157). -/
def truthy : Option String → Bool
  | none => false
  | some s => s ≠ ""

/-- Modelled from the spec: `create_document` (database.py, absent from
src/) "inserts a new document into the named collection, tagging it with a
creation timestamp; returns a store-assigned unique identifier" (§4.1),
specialized to the `otprequest` collection with the fields of main.py:92-98. -/
def createOtpDocument (s : Store) (now : Nat) (phone purpose code : String)
    (expires : Nat) : Store × Nat :=
  ({ s with
      otps := s.otps ++ [⟨s.nextId, phone, purpose, code, false, expires, now, none⟩],
      events := s.events ++ [.docCreate "otprequest"],
      nextId := s.nextId + 1 },
   s.nextId)

/-- Modelled from the spec: `create_document` (§4.1) specialized to the
`franchiseinquiry` collection; the stored fields are `payload.model_dump()`
(main.py:141). -/
def createFranchiseDocument (s : Store) (now : Nat) (p : FranchisePayload) :
    Store × Nat :=
  ({ s with
      franchiseDocs := s.franchiseDocs ++ [⟨s.nextId, now, p⟩],
      events := s.events ++ [.docCreate "franchiseinquiry"],
      nextId := s.nextId + 1 },
   s.nextId)

/-- Modelled from the spec: `create_document` (§4.1) specialized to the
`mallinquiry` collection; the stored fields are the `data` dict of
main.py:175-184. -/
def createMallDocument (s : Store) (now : Nat) (p : MallForm)
    (file_meta : Option FileMeta) : Store × Nat :=
  ({ s with
      mallDocs := s.mallDocs ++
        [⟨s.nextId, now, p.contact_name, p.email, p.phone, p.mall_name,
          p.location_city, p.available_space_sqft, p.message, file_meta⟩],
      events := s.events ++ [.docCreate "mallinquiry"],
      nextId := s.nextId + 1 },
   s.nextId)

/-- `POST /api/otp/start` (main.py:88-100): stub code `"123456"`,
`expires_at = now + 10 minutes`, insert an `otprequest` document, return the
demo code. -/
def start_otp (s : Store) (now : Nat) (req : OTPStartRequest) :
    StartOtpResponse × Store :=
  let code := "123456"
  let expires_at := now + 600
  let s1 := (createOtpDocument s now req.phone req.purpose code expires_at).1
  (⟨true, "OTP sent", code⟩, s1)

/-- `update_one({"_id": rec["_id"]}, {"$set": {"verified": True,
"updated_at": now}})` applied pointwise (main.py:113); `_id` is unique, so
exactly one record changes. -/
def updIf (i : Nat) (now : Nat) (r : OtpRec) : OtpRec :=
  if r.id = i then { r with verified := true, updated_at := some now } else r

/-- `POST /api/otp/verify` (main.py:103-114): fetch the most recent record
for the key, fail `"OTP not found"` / `"Invalid OTP"` / `"OTP expired"` in
that order, otherwise mark the record verified. -/
def verify_otp (s : Store) (now : Nat) (req : OTPVerifyRequest) :
    Except HTTPException VerifyResponse × Store :=
  match latestMatch s req.phone req.purpose with
  | none => (.error ⟨400, "OTP not found"⟩, s)
  | some rec =>
    if rec.code ≠ req.code then (.error ⟨400, "Invalid OTP"⟩, s)
    else if now > rec.expires_at then (.error ⟨400, "OTP expired"⟩, s)
    else (.ok ⟨true⟩, { s with otps := s.otps.map (updIf rec.id now) })

/-- `POST /api/franchise` (main.py:133-142): if `otp_code` is truthy, verify
it inline with `purpose="franchise"` and re-raise any failure; then persist
`payload.model_dump()` as one `franchiseinquiry` document. -/
def submit_franchise (s : Store) (now : Nat) (p : FranchisePayload) :
    Except HTTPException FranchiseResponse × Store :=
  if truthy p.otp_code then
    match verify_otp s now ⟨p.phone, "franchise", p.otp_code.getD ""⟩ with
    | (.error e, s') => (.error e, s')
    | (.ok _, s') =>
      let (s1, docId) := createFranchiseDocument s' now p
      (.ok ⟨true, docId⟩, s1)
  else
    let (s1, docId) := createFranchiseDocument s now p
    (.ok ⟨true, docId⟩, s1)

/-- The file-saving block of `submit_mall` (main.py:163-173): write the
bytes under `public/uploads/<timestamp>_<original-filename>` and build the
`{filename, path, size}` metadata. -/
def saveFloorplan (s : Store) (now : Nat) (fp : UploadedFile) :
    Store × FileMeta :=
  let filename := toString now ++ "_" ++ fp.filename
  let path := "public/uploads/" ++ filename
  ({ s with
      files := s.files ++ [(path, fp.content)],
      events := s.events ++ [.fileWrite path fp.content.length] },
   ⟨filename, "/uploads/" ++ filename, fp.content.length⟩)

/-- The part of `submit_mall` after the OTP gate (main.py:163-186):
optionally save the floorplan file, then persist the `mallinquiry` document
and return its id with the file metadata. -/
def mallPersist (s : Store) (now : Nat) (p : MallForm) :
    Except HTTPException MallResponse × Store :=
  match p.floorplan with
  | none =>
    let (s1, docId) := createMallDocument s now p none
    (.ok ⟨true, docId, none⟩, s1)
  | some fp =>
    let (s1, meta) := saveFloorplan s now fp
    let (s2, docId) := createMallDocument s1 now p (some meta)
    (.ok ⟨true, docId, some meta⟩, s2)

/-- `POST /api/mall` (main.py:145-186): same inline OTP gate with
`purpose="mall"`, then the file/document persistence of `mallPersist`. -/
def submit_mall (s : Store) (now : Nat) (p : MallForm) :
    Except HTTPException MallResponse × Store :=
  if truthy p.otp_code then
    match verify_otp s now ⟨p.phone, "mall", p.otp_code.getD ""⟩ with
    | (.error e, s') => (.error e, s')
    | (.ok _, s') => mallPersist s' now p
  else mallPersist s now p

/-- The raw JSON body of `POST /api/franchise`: which keys are present and
with what values, before pydantic validation. -/
structure RawFranchiseBody where
  full_name : Option String
  email : Option String
  phone : Option String
  investment_capacity_lakhs : Option Int
  preferred_cities : Option String
  city_tier : Option String
  message : Option String
  otp_code : Option String
deriving Repr, DecidableEq

/-- Split a character list on a separator character. -/
def splitOnChar (c : Char) : List Char → List (List Char)
  | [] => [[]]
  | a :: as =>
    match splitOnChar c as with
    | [] => if a = c then [[], []] else [[a]]
    | g :: gs => if a = c then [] :: g :: gs else (a :: g) :: gs

/-- Modelled from the spec: pydantic's `EmailStr` email-format check (the
`email-validator` library is not in src/); per §4.3 the endpoint validates
"email format".  Modelled as: exactly one `@`, a nonempty local part, and a
domain containing a dot neither at its start nor at its end. -/
def isValidEmail (s : String) : Bool :=
  match splitOnChar '@' s.toList with
  | [lp, dom] =>
    !lp.isEmpty && !dom.isEmpty && dom.contains '.' &&
      dom.head? ≠ some '.' && dom.getLast? ≠ some '.'
  | _ => false

/-- FastAPI's validation of the body against `FranchisePayload`
(main.py:30-38): all six required fields present, `email` a valid email;
`message` and `otp_code` default to `None`.  `FranchisePayload` declares NO
bound on `investment_capacity_lakhs` and NO enum for `city_tier`. -/
def validateFranchisePayload (raw : RawFranchiseBody) : Option FranchisePayload :=
  match raw.full_name, raw.email, raw.phone, raw.investment_capacity_lakhs,
      raw.preferred_cities, raw.city_tier with
  | some fn, some em, some ph, some inv, some pc, some ct =>
    if isValidEmail em then
      some ⟨fn, em, ph, inv, pc, ct, raw.message, raw.otp_code⟩
    else none
  | _, _, _, _, _, _ => none

/-- The `FranchiseInquiry` schema of schemas.py:42-50 as a validator of the
same raw body (this is what the spec claims the endpoint enforces): adds
`phone` length 10-15, `investment_capacity_lakhs ≥ 0` and
`city_tier ∈ {"Tier 1", "Tier 2"}` on top of presence and email format. -/
def validatesAsFranchiseInquiry (raw : RawFranchiseBody) : Bool :=
  match raw.full_name, raw.email, raw.phone, raw.investment_capacity_lakhs,
      raw.preferred_cities, raw.city_tier with
  | some _, some em, some ph, some inv, some _, some ct =>
    isValidEmail em && 10 ≤ ph.length && ph.length ≤ 15 &&
      0 ≤ inv && (ct = "Tier 1" || ct = "Tier 2")
  | _, _, _, _, _, _ => false

/-- A request failure as seen by the client: FastAPI's 422 validation error
(issued before the handler body runs) or an `HTTPException` raised by the
handler. -/
inductive EndpointError where
  | validation
  | http (e : HTTPException)
deriving Repr, DecidableEq

/-- The full `POST /api/franchise` route: FastAPI validates the raw body
against `FranchisePayload` before `submit_franchise` runs; a validation
failure reaches no handler logic and causes no side effect. -/
def franchise_endpoint (s : Store) (now : Nat) (raw : RawFranchiseBody) :
    Except EndpointError FranchiseResponse × Store :=
  match validateFranchisePayload raw with
  | none => (.error .validation, s)
  | some p =>
    match submit_franchise s now p with
    | (.error e, s') => (.error (.http e), s')
    | (.ok r, s') => (.ok r, s')

/-! ## Helper lemmas -/

/-- The empty store (fresh database). -/
def emptyStore : Store := ⟨[], [], [], [], [], 0⟩

/-- A store holding one `otprequest` record, as left by a `start_otp` call
at time 100 for phone `"9999999999"`, purpose `"franchise"`. -/
def oneOtpStore : Store :=
  ⟨[⟨0, "9999999999", "franchise", "123456", false, 700, 100, none⟩],
   [], [], [], [.docCreate "otprequest"], 1⟩

theorem verify_error_state (s : Store) (now : Nat) (req : OTPVerifyRequest)
    (e : HTTPException) (h : (verify_otp s now req).1 = .error e) :
    (verify_otp s now req).2 = s := by
  unfold verify_otp at h ⊢
  cases hl : latestMatch s req.phone req.purpose with
  | none => rfl
  | some rec =>
    rw [hl] at h
    by_cases hc : rec.code ≠ req.code
    · simp [hc]
    · by_cases he : now > rec.expires_at
      · simp [hc, he]
      · simp [hc, he] at h

theorem verify_error_status (s : Store) (now : Nat) (req : OTPVerifyRequest)
    (e : HTTPException) (h : (verify_otp s now req).1 = .error e) :
    e.status_code = 400 := by
  unfold verify_otp at h
  cases hl : latestMatch s req.phone req.purpose with
  | none =>
    rw [hl] at h
    cases h
    rfl
  | some rec =>
    rw [hl] at h
    by_cases hc : rec.code ≠ req.code
    · simp [hc] at h
      cases h
      rfl
    · by_cases he : now > rec.expires_at
      · simp [hc, he] at h
        cases h
        rfl
      · simp [hc, he] at h

/-! ## C1: verify_otp error taxonomy and check order -/

/-- Claim C1: for every `verify_otp` call, if no `otprequest` record matches
`(phone, purpose)` the call fails with 400 `"OTP not found"`; otherwise,
with `rec` the single most-recently-created matching record, a supplied code
differing from `rec.code` fails with 400 `"Invalid OTP"` regardless of
expiry (the mismatch check precedes the expiry check), and a matching code
with `now > rec.expires_at` fails with 400 `"OTP expired"`. -/
theorem verify_otp_error_cases (s : Store) (now : Nat) (req : OTPVerifyRequest) :
    (s.otps.filter (fun r => keyMatch r req.phone req.purpose) = [] →
      verify_otp s now req = (.error ⟨400, "OTP not found"⟩, s)) ∧
    (∀ rec, latestMatch s req.phone req.purpose = some rec →
      rec.code ≠ req.code →
      verify_otp s now req = (.error ⟨400, "Invalid OTP"⟩, s)) ∧
    (∀ rec, latestMatch s req.phone req.purpose = some rec →
      rec.code = req.code → now > rec.expires_at →
      verify_otp s now req = (.error ⟨400, "OTP expired"⟩, s)) := by
  refine ⟨?_, ?_, ?_⟩
  · intro h
    simp [verify_otp, latestMatch, h, latestRec]
  · intro rec hrec hne
    simp [verify_otp, hrec, hne]
  · intro rec hrec hcode hexp
    simp [verify_otp, hrec, hcode, hexp]

/-- Witness for C1: a concrete run of each error case; the `"Invalid OTP"`
case is exercised on an already-expired record (`now = 800 > 700`) to show
the mismatch check fires before the expiry check. -/
theorem verify_otp_error_cases_witness :
    verify_otp emptyStore 0 ⟨"9999999999", "franchise", "123456"⟩ =
      (.error ⟨400, "OTP not found"⟩, emptyStore) ∧
    verify_otp oneOtpStore 800 ⟨"9999999999", "franchise", "000000"⟩ =
      (.error ⟨400, "Invalid OTP"⟩, oneOtpStore) ∧
    verify_otp oneOtpStore 800 ⟨"9999999999", "franchise", "123456"⟩ =
      (.error ⟨400, "OTP expired"⟩, oneOtpStore) :=
  ⟨(verify_otp_error_cases emptyStore 0 _).1 (by decide),
   (verify_otp_error_cases oneOtpStore 800 _).2.1
     ⟨0, "9999999999", "franchise", "123456", false, 700, 100, none⟩
     (by decide) (by decide),
   (verify_otp_error_cases oneOtpStore 800 _).2.2
     ⟨0, "9999999999", "franchise", "123456", false, 700, 100, none⟩
     (by decide) (by decide) (by decide)⟩

/-! ## C6: failed verification mutates nothing -/

/-- Claim C6: whenever `verify_otp` fails (NotFound, InvalidCode or
Expired), the returned store is exactly the input store: no `otprequest`
document — in particular no `verified` flag or `updated_at` stamp — is
mutated. -/
theorem verify_otp_no_mutation_on_error (s : Store) (now : Nat)
    (req : OTPVerifyRequest) (e : HTTPException)
    (h : (verify_otp s now req).1 = .error e) :
    (verify_otp s now req).2 = s :=
  verify_error_state s now req e h

/-- Witness for C6: the store is untouched after a failed verification of a
wrong code against a concrete record. -/
theorem verify_otp_no_mutation_on_error_witness :
    (verify_otp oneOtpStore 200 ⟨"9999999999", "franchise", "000000"⟩).2 =
      oneOtpStore :=
  verify_otp_no_mutation_on_error oneOtpStore 200
    ⟨"9999999999", "franchise", "000000"⟩ ⟨400, "Invalid OTP"⟩ (by rfl)

/-! ## C2: a failed inline verification aborts the franchise submission -/

/-- Claim C2: for every franchise submission whose `otp_code` is present
(truthy) and whose inline OTP verification fails with `e`, the whole
submission fails with exactly that error, a 400-class client error, and the
store is unchanged — in particular no `franchiseinquiry` document is
created. -/
theorem submit_franchise_aborts_on_verify_error (s : Store) (now : Nat)
    (p : FranchisePayload) (e : HTTPException)
    (ht : truthy p.otp_code = true)
    (hv : (verify_otp s now ⟨p.phone, "franchise", p.otp_code.getD ""⟩).1 =
      .error e) :
    submit_franchise s now p = (.error e, s) ∧ e.status_code = 400 := by
  have hsnd := verify_error_state s now ⟨p.phone, "franchise", p.otp_code.getD ""⟩ e hv
  have hpair : verify_otp s now ⟨p.phone, "franchise", p.otp_code.getD ""⟩ =
      (.error e, s) := by
    have heta : verify_otp s now ⟨p.phone, "franchise", p.otp_code.getD ""⟩ =
        ((verify_otp s now ⟨p.phone, "franchise", p.otp_code.getD ""⟩).1,
         (verify_otp s now ⟨p.phone, "franchise", p.otp_code.getD ""⟩).2) := rfl
    rw [heta, hv, hsnd]
  refine ⟨?_, verify_error_status s now _ e hv⟩
  simp [submit_franchise, ht, hpair]

/-- Witness for C2: a concrete franchise payload carrying a wrong code is
rejected whole; the store still holds no `franchiseinquiry` document. -/
theorem submit_franchise_aborts_on_verify_error_witness :
    submit_franchise oneOtpStore 200
        ⟨"A B", "a@b.com", "9999999999", 50, "Pune", "Tier 1", none, some "000000"⟩ =
      (.error ⟨400, "Invalid OTP"⟩, oneOtpStore) ∧
    (⟨400, "Invalid OTP"⟩ : HTTPException).status_code = 400 :=
  submit_franchise_aborts_on_verify_error oneOtpStore 200
    ⟨"A B", "a@b.com", "9999999999", 50, "Pune", "Tier 1", none, some "000000"⟩
    ⟨400, "Invalid OTP"⟩ (by decide) (by rfl)

/-! ## C7: absent otp_code bypasses verification entirely -/

/-- Claim C7: when `otp_code` is absent (`None`), no OTP verification is
performed — the outcome is independent of the OTP ledger — and the
submission succeeds: the full validated payload is persisted as one
document whose store-assigned identifier is returned; the same
bypass-if-absent behavior holds for the mall handler. -/
theorem submit_without_otp_code_bypasses_verification (s : Store) (now : Nat)
    (p : FranchisePayload) (m : MallForm)
    (hp : p.otp_code = none) (hm : m.otp_code = none) :
    (∀ otps', (submit_franchise { s with otps := otps' } now p).1 =
      (submit_franchise s now p).1) ∧
    submit_franchise s now p =
      (.ok ⟨true, s.nextId⟩, (createFranchiseDocument s now p).1) ∧
    (createFranchiseDocument s now p).1.franchiseDocs =
      s.franchiseDocs ++ [⟨s.nextId, now, p⟩] ∧
    (createFranchiseDocument s now p).1.otps = s.otps ∧
    (∀ otps', (submit_mall { s with otps := otps' } now m).1 =
      (submit_mall s now m).1) ∧
    (∃ fm s2, submit_mall s now m = (.ok ⟨true, s.nextId, fm⟩, s2) ∧
      s2.mallDocs = s.mallDocs ++
        [⟨s.nextId, now, m.contact_name, m.email, m.phone, m.mall_name,
          m.location_city, m.available_space_sqft, m.message, fm⟩] ∧
      s2.otps = s.otps) := by
  refine ⟨?_, ?_, ?_, ?_, ?_, ?_⟩
  · intro otps'
    simp [submit_franchise, truthy, hp, createFranchiseDocument]
  · simp [submit_franchise, truthy, hp, createFranchiseDocument]
  · simp [createFranchiseDocument]
  · simp [createFranchiseDocument]
  · intro otps'
    cases hf : m.floorplan <;>
      simp [submit_mall, mallPersist, truthy, hm, hf, createMallDocument, saveFloorplan]
  · cases hf : m.floorplan with
    | none =>
      refine ⟨none, (createMallDocument s now m none).1, ?_, ?_, ?_⟩
      · simp [submit_mall, mallPersist, truthy, hm, hf, createMallDocument]
      · simp [createMallDocument]
      · simp [createMallDocument]
    | some fp =>
      refine ⟨some ⟨toString now ++ "_" ++ fp.filename,
          "/uploads/" ++ (toString now ++ "_" ++ fp.filename),
          fp.content.length⟩,
        (createMallDocument (saveFloorplan s now fp).1 now m
          (some ⟨toString now ++ "_" ++ fp.filename,
            "/uploads/" ++ (toString now ++ "_" ++ fp.filename),
            fp.content.length⟩)).1, ?_, ?_, ?_⟩
      · simp [submit_mall, mallPersist, truthy, hm, hf, saveFloorplan, createMallDocument]
      · simp [createMallDocument, saveFloorplan]
      · simp [createMallDocument, saveFloorplan]

/-- Witness for C7: a concrete franchise payload and mall form, both with
`otp_code = None`, submitted against the empty store. -/
theorem submit_without_otp_code_bypasses_verification_witness :
    (∀ otps',
      (submit_franchise { emptyStore with otps := otps' } 100
        ⟨"A B", "a@b.com", "9999999999", 50, "Pune", "Tier 1", none, none⟩).1 =
      (submit_franchise emptyStore 100
        ⟨"A B", "a@b.com", "9999999999", 50, "Pune", "Tier 1", none, none⟩).1) ∧
    submit_franchise emptyStore 100
        ⟨"A B", "a@b.com", "9999999999", 50, "Pune", "Tier 1", none, none⟩ =
      (.ok ⟨true, emptyStore.nextId⟩,
        (createFranchiseDocument emptyStore 100
          ⟨"A B", "a@b.com", "9999999999", 50, "Pune", "Tier 1", none, none⟩).1) ∧
    (createFranchiseDocument emptyStore 100
        ⟨"A B", "a@b.com", "9999999999", 50, "Pune", "Tier 1", none, none⟩).1.franchiseDocs =
      emptyStore.franchiseDocs ++
        [⟨emptyStore.nextId, 100,
          ⟨"A B", "a@b.com", "9999999999", 50, "Pune", "Tier 1", none, none⟩⟩] ∧
    (createFranchiseDocument emptyStore 100
        ⟨"A B", "a@b.com", "9999999999", 50, "Pune", "Tier 1", none, none⟩).1.otps =
      emptyStore.otps ∧
    (∀ otps',
      (submit_mall { emptyStore with otps := otps' } 100
        ⟨"C D", "c@d.com", "8888888888", "M", "Pune", 900, none, none, none⟩).1 =
      (submit_mall emptyStore 100
        ⟨"C D", "c@d.com", "8888888888", "M", "Pune", 900, none, none, none⟩).1) ∧
    (∃ fm s2,
      submit_mall emptyStore 100
          ⟨"C D", "c@d.com", "8888888888", "M", "Pune", 900, none, none, none⟩ =
        (.ok ⟨true, emptyStore.nextId, fm⟩, s2) ∧
      s2.mallDocs = emptyStore.mallDocs ++
        [⟨emptyStore.nextId, 100, "C D", "c@d.com", "8888888888", "M", "Pune",
          900, none, fm⟩] ∧
      s2.otps = emptyStore.otps) :=
  submit_without_otp_code_bypasses_verification emptyStore 100
    ⟨"A B", "a@b.com", "9999999999", 50, "Pune", "Tier 1", none, none⟩
    ⟨"C D", "c@d.com", "8888888888", "M", "Pune", 900, none, none, none⟩
    rfl rfl

/-! ## C10: empty-string otp_code also bypasses verification -/

/-- A concrete franchise payload whose `otp_code` is the empty string. -/
def emptyCodePayload : FranchisePayload :=
  ⟨"A B", "a@b.com", "9999999999", 50, "Pune", "Tier 1", none, some ""⟩

/-- Counterexample to C10 as stated: with `otp_code = ""` the franchise
submission does succeed without verification, but it is NOT persisted
exactly as if `otp_code` had been absent — `model_dump()` stores the raw
payload, so the stored document records `otp_code` as `""` where the
absent-field submission stores `None`; the two stored collections differ. -/
theorem empty_otp_code_franchise_doc_differs :
    (submit_franchise emptyStore 100 emptyCodePayload).1 = .ok ⟨true, 0⟩ ∧
    (submit_franchise emptyStore 100 emptyCodePayload).2.franchiseDocs ≠
      (submit_franchise emptyStore 100
        { emptyCodePayload with otp_code := none }).2.franchiseDocs := by
  constructor
  · rfl
  · intro h
    simp [submit_franchise, truthy, createFranchiseDocument,
      emptyCodePayload] at h

/-- Claim C10 as amended: a present-but-empty `otp_code` is falsy, so both
handlers skip verification (the outcome is independent of the OTP ledger)
and the submission succeeds; the mall submission is persisted exactly as if
`otp_code` had been absent, while the stored franchise document differs
from the absent case only in its persisted `otp_code` field, which holds
`""` instead of `None`. -/
theorem submit_empty_otp_code_bypasses (s : Store) (now : Nat)
    (p : FranchisePayload) (m : MallForm)
    (hp : p.otp_code = some "") (hm : m.otp_code = some "") :
    (∀ otps', (submit_franchise { s with otps := otps' } now p).1 =
      (submit_franchise s now p).1) ∧
    submit_franchise s now p =
      (.ok ⟨true, s.nextId⟩, (createFranchiseDocument s now p).1) ∧
    (createFranchiseDocument s now p).1.franchiseDocs =
      s.franchiseDocs ++ [⟨s.nextId, now, p⟩] ∧
    submit_mall s now m = submit_mall s now { m with otp_code := none } := by
  refine ⟨?_, ?_, ?_, ?_⟩
  · intro otps'
    simp [submit_franchise, truthy, hp, createFranchiseDocument]
  · simp [submit_franchise, truthy, hp, createFranchiseDocument]
  · simp [createFranchiseDocument]
  · cases hf : m.floorplan <;>
      simp [submit_mall, mallPersist, truthy, hm, hf, createMallDocument, saveFloorplan]

/-- Witness for C10 (amended): concrete payloads carrying `otp_code = ""`. -/
theorem submit_empty_otp_code_bypasses_witness :
    (∀ otps',
      (submit_franchise { oneOtpStore with otps := otps' } 100
        emptyCodePayload).1 =
      (submit_franchise oneOtpStore 100 emptyCodePayload).1) ∧
    submit_franchise oneOtpStore 100 emptyCodePayload =
      (.ok ⟨true, oneOtpStore.nextId⟩,
        (createFranchiseDocument oneOtpStore 100 emptyCodePayload).1) ∧
    (createFranchiseDocument oneOtpStore 100 emptyCodePayload).1.franchiseDocs =
      oneOtpStore.franchiseDocs ++ [⟨oneOtpStore.nextId, 100, emptyCodePayload⟩] ∧
    submit_mall oneOtpStore 100
        ⟨"C D", "c@d.com", "8888888888", "M", "Pune", 900, none, some "", none⟩ =
      submit_mall oneOtpStore 100
        { contact_name := "C D", email := "c@d.com", phone := "8888888888",
          mall_name := "M", location_city := "Pune",
          available_space_sqft := 900, message := none, otp_code := none,
          floorplan := none } :=
  submit_empty_otp_code_bypasses oneOtpStore 100 emptyCodePayload
    ⟨"C D", "c@d.com", "8888888888", "M", "Pune", 900, none, some "", none⟩
    rfl rfl

/-! ## C3: what the franchise endpoint actually validates -/

/-- A raw franchise body violating both constraints the spec claims are
enforced: `investment_capacity_lakhs = -5 < 0` and
`city_tier = "Tier 3" ∉ \x7b"Tier 1", "Tier 2"\x7d`. -/
def outOfRangeRaw : RawFranchiseBody :=
  ⟨some "A B", some "a@b.com", some "9999999999", some (-5), some "Pune",
   some "Tier 3", none, none⟩

/-- Counterexample to C3 as stated: a body that fails the `FranchiseInquiry`
constraints (negative investment capacity, city tier outside the enum) is
NOT rejected by the endpoint — the handler's request model
`FranchisePayload` carries no such bounds, so the submission succeeds and a
`franchiseinquiry` document is created. -/
theorem franchise_endpoint_accepts_out_of_enum_input :
    validatesAsFranchiseInquiry outOfRangeRaw = false ∧
    (franchise_endpoint emptyStore 100 outOfRangeRaw).1 = .ok ⟨true, 0⟩ ∧
    (franchise_endpoint emptyStore 100 outOfRangeRaw).2.franchiseDocs ≠ [] := by
  exact ⟨by decide, by rfl, by decide⟩

/-- Claim C3 as amended: the endpoint validates the JSON body against
`FranchisePayload` before any OTP or store logic — field presence and email
format; a validation failure is rejected with a validation error and no
side effect occurs.  It does NOT bound `investment_capacity_lakhs` and does
NOT restrict `city_tier`: whenever all six required fields are present and
the email is well-formed, validation succeeds for every value of those two
fields (the constrained `FranchiseInquiry` schema is not consulted). -/
theorem franchise_endpoint_validation (s : Store) (now : Nat)
    (raw : RawFranchiseBody) :
    (validateFranchisePayload raw = none →
      franchise_endpoint s now raw = (.error .validation, s)) ∧
    (∀ fn em ph inv pc ct, raw.full_name = some fn → raw.email = some em →
      raw.phone = some ph → raw.investment_capacity_lakhs = some inv →
      raw.preferred_cities = some pc → raw.city_tier = some ct →
      isValidEmail em = true →
      validateFranchisePayload raw =
        some ⟨fn, em, ph, inv, pc, ct, raw.message, raw.otp_code⟩) := by
  constructor
  · intro h
    simp [franchise_endpoint, h]
  · intro fn em ph inv pc ct h1 h2 h3 h4 h5 h6 hem
    simp [validateFranchisePayload, h1, h2, h3, h4, h5, h6, hem]

/-- Witness for C3 (amended): a body missing its email is rejected before
any side effect; `outOfRangeRaw` passes validation despite its negative
investment capacity and out-of-enum tier. -/
theorem franchise_endpoint_validation_witness :
    franchise_endpoint emptyStore 100
        ⟨some "A B", none, some "9999999999", some 50, some "Pune",
         some "Tier 1", none, none⟩ =
      (.error .validation, emptyStore) ∧
    validateFranchisePayload outOfRangeRaw =
      some ⟨"A B", "a@b.com", "9999999999", -5, "Pune", "Tier 3",
        none, none⟩ :=
  ⟨(franchise_endpoint_validation emptyStore 100
      ⟨some "A B", none, some "9999999999", some 50, some "Pune",
       some "Tier 1", none, none⟩).1 (by rfl),
   (franchise_endpoint_validation emptyStore 100 outOfRangeRaw).2
     "A B" "a@b.com" "9999999999" (-5) "Pune" "Tier 3"
     rfl rfl rfl rfl rfl rfl (by decide)⟩

/-! ## Lemmas on the most-recent-record selection -/

theorem latestRec_append_last (xs : List OtpRec) (r : OtpRec)
    (h : ∀ x ∈ xs, x.created_at ≤ r.created_at) :
    latestRec (xs ++ [r]) = some r := by
  induction xs with
  | nil => rfl
  | cons a as ih =>
    have ha : a.created_at ≤ r.created_at := h a (List.mem_cons_self a as)
    have ih' := ih fun x hx => h x (List.mem_cons_of_mem a hx)
    rw [show (a :: as) ++ [r] = a :: (as ++ [r]) from rfl, latestRec, ih']
    show (if r.created_at ≥ a.created_at then some r else some a) = some r
    rw [if_pos ha]

theorem latestMatch_after_start (s : Store) (req : OTPStartRequest) (t : Nat)
    (hold : ∀ r ∈ s.otps, keyMatch r req.phone req.purpose = true →
      r.created_at ≤ t) :
    latestMatch (start_otp s t req).2 req.phone req.purpose =
      some ⟨s.nextId, req.phone, req.purpose, "123456", false, t + 600, t, none⟩ := by
  unfold latestMatch
  have hotps : (start_otp s t req).2.otps = s.otps ++
      [(⟨s.nextId, req.phone, req.purpose, "123456", false, t + 600, t,
        none⟩ : OtpRec)] := rfl
  rw [hotps, List.filter_append]
  have hnew : (List.filter (fun r => keyMatch r req.phone req.purpose)
      [(⟨s.nextId, req.phone, req.purpose, "123456", false, t + 600, t,
        none⟩ : OtpRec)]) =
      [(⟨s.nextId, req.phone, req.purpose, "123456", false, t + 600, t,
        none⟩ : OtpRec)] := by
    simp [keyMatch]
  rw [hnew]
  apply latestRec_append_last
  intro x hx
  have hx' := List.mem_filter.mp hx
  exact hold x hx'.1 (by simpa using hx'.2)

/-! ## C5: the demo code is exactly what verify_otp requires -/

/-- Claim C5: for every valid `start_otp` call (its new record superseding
the key's older ones), the returned `demo_code` is the code a subsequent
`verify_otp` for the same phone and purpose must supply: verification with
the demo code within 10 minutes (`expires_at = creation + 600`) succeeds,
and verification with any other code fails. -/
theorem demo_code_verifies_within_ttl (s : Store) (req : OTPStartRequest)
    (t t2 : Nat) (hv : validStartOtp req)
    (hold : ∀ r ∈ s.otps, keyMatch r req.phone req.purpose = true →
      r.created_at ≤ t)
    (h2 : t2 ≤ t + 600) :
    ((verify_otp (start_otp s t req).2 t2
        ⟨req.phone, req.purpose, (start_otp s t req).1.demo_code⟩).1 =
      .ok ⟨true⟩) ∧
    (∀ c, c ≠ (start_otp s t req).1.demo_code →
      (verify_otp (start_otp s t req).2 t2 ⟨req.phone, req.purpose, c⟩).1 =
        .error ⟨400, "Invalid OTP"⟩) := by
  have hl := latestMatch_after_start s req t hold
  have hdemo : (start_otp s t req).1.demo_code = "123456" := rfl
  constructor
  · have hexp : ¬ t2 > t + 600 := by omega
    simp [verify_otp, hl, hdemo, hexp]
  · intro c hc
    rw [hdemo] at hc
    simp [verify_otp, hl, Ne.symm hc]

/-- Witness for C5: a fresh store, a valid start at time 100, verification
at time 700 (the expiry boundary) with the demo code succeeds, with
`"000000"` it fails. -/
theorem demo_code_verifies_within_ttl_witness :
    ((verify_otp (start_otp emptyStore 100 ⟨"9999999999", "franchise"⟩).2 700
        ⟨"9999999999", "franchise",
          (start_otp emptyStore 100 ⟨"9999999999", "franchise"⟩).1.demo_code⟩).1 =
      .ok ⟨true⟩) ∧
    ((verify_otp (start_otp emptyStore 100 ⟨"9999999999", "franchise"⟩).2 700
        ⟨"9999999999", "franchise", "000000"⟩).1 =
      .error ⟨400, "Invalid OTP"⟩) :=
  have h := demo_code_verifies_within_ttl emptyStore ⟨"9999999999", "franchise"⟩
    100 700 (by exact ⟨by decide, by decide, Or.inl rfl⟩) (by intro r hr; cases hr) (by omega)
  ⟨h.1, h.2 "000000" (by decide)⟩

/-! ## C4: verifying the first of two issued codes -/

/-- Counterexample to C4 as stated: two `start_otp` calls for the same
phone and purpose at times 100 and 200, then `verify_otp` at time 300 with
the FIRST call's demo code — the claim says this must fail, but it
succeeds, because the stub issues the fixed code `"123456"` to every call,
so the first call's code coincides with the latest record's code. -/
theorem first_code_verifies_after_two_starts_concrete :
    (verify_otp
        (start_otp (start_otp emptyStore 100 ⟨"9999999999", "franchise"⟩).2
          200 ⟨"9999999999", "franchise"⟩).2 300
        ⟨"9999999999", "franchise",
          (start_otp emptyStore 100 ⟨"9999999999", "franchise"⟩).1.demo_code⟩).1 =
      .ok ⟨true⟩ := by
  rfl

/-- Claim C4 as amended: after two `start_otp` calls in sequence for the
same (phone, purpose), `verify_otp` only ever checks the most-recently-
created record — a supplied code differing from that latest record's code
fails with InvalidCode — but since `start_otp` always issues the fixed code
`"123456"`, the FIRST call's code equals the latest record's code, so
verifying with it SUCCEEDS while the second record is unexpired. -/
theorem start_twice_first_code_still_verifies (s : Store)
    (req : OTPStartRequest) (t1 t2 t3 : Nat) (hv : validStartOtp req)
    (hold : ∀ r ∈ s.otps, keyMatch r req.phone req.purpose = true →
      r.created_at ≤ t1)
    (h12 : t1 ≤ t2) (h3 : t3 ≤ t2 + 600) :
    ((verify_otp (start_otp (start_otp s t1 req).2 t2 req).2 t3
        ⟨req.phone, req.purpose, (start_otp s t1 req).1.demo_code⟩).1 =
      .ok ⟨true⟩) ∧
    (∀ c, c ≠ "123456" →
      (verify_otp (start_otp (start_otp s t1 req).2 t2 req).2 t3
        ⟨req.phone, req.purpose, c⟩).1 = .error ⟨400, "Invalid OTP"⟩) := by
  have hstep : (start_otp s t1 req).2.otps = s.otps ++
      [⟨s.nextId, req.phone, req.purpose, "123456", false, t1 + 600, t1, none⟩] :=
    rfl
  have hold2 : ∀ r ∈ (start_otp s t1 req).2.otps,
      keyMatch r req.phone req.purpose = true → r.created_at ≤ t2 := by
    intro r hr hk
    rw [hstep] at hr
    rcases List.mem_append.mp hr with h | h
    · exact le_trans (hold r h hk) h12
    · have := List.mem_singleton.mp h
      subst this
      exact h12
  have hl := latestMatch_after_start (start_otp s t1 req).2 req t2 hold2
  have hdemo : (start_otp s t1 req).1.demo_code = "123456" := rfl
  constructor
  · have hexp : ¬ t3 > t2 + 600 := by omega
    simp [verify_otp, hl, hdemo, hexp]
  · intro c hc
    simp [verify_otp, hl, Ne.symm hc]

/-- Witness for C4 (amended): the concrete two-start scenario at times 100
and 200, verified at 300. -/
theorem start_twice_first_code_still_verifies_witness :
    ((verify_otp
        (start_otp (start_otp emptyStore 100 ⟨"9999999999", "franchise"⟩).2
          200 ⟨"9999999999", "franchise"⟩).2 300
        ⟨"9999999999", "franchise",
          (start_otp emptyStore 100 ⟨"9999999999", "franchise"⟩).1.demo_code⟩).1 =
      .ok ⟨true⟩) ∧
    ((verify_otp
        (start_otp (start_otp emptyStore 100 ⟨"9999999999", "franchise"⟩).2
          200 ⟨"9999999999", "franchise"⟩).2 300
        ⟨"9999999999", "franchise", "999999"⟩).1 =
      .error ⟨400, "Invalid OTP"⟩) :=
  have h := start_twice_first_code_still_verifies emptyStore
    ⟨"9999999999", "franchise"⟩ 100 200 300
    (by exact ⟨by decide, by decide, Or.inl rfl⟩)
    (by intro r hr; cases hr) (by omega) (by omega)
  ⟨h.1, h.2 "999999" (by decide)⟩

/-! ## Lemmas on the verified-flag update -/

theorem keyMatch_updIf (i t : Nat) (r : OtpRec) (ph pu : String) :
    keyMatch (updIf i t r) ph pu = keyMatch r ph pu := by
  unfold updIf
  split <;> rfl

theorem updIf_created_at (i t : Nat) (r : OtpRec) :
    (updIf i t r).created_at = r.created_at := by
  unfold updIf
  split <;> rfl

theorem filter_map_updIf (l : List OtpRec) (i t : Nat) (ph pu : String) :
    (l.map (updIf i t)).filter (fun r => keyMatch r ph pu) =
      (l.filter (fun r => keyMatch r ph pu)).map (updIf i t) := by
  induction l with
  | nil => rfl
  | cons a as ih =>
    simp only [List.map_cons, List.filter_cons, keyMatch_updIf]
    cases h : keyMatch a ph pu <;> simp [h, ih]

theorem latestRec_map_updIf (l : List OtpRec) (i t : Nat) :
    latestRec (l.map (updIf i t)) = (latestRec l).map (updIf i t) := by
  induction l with
  | nil => rfl
  | cons a as ih =>
    simp only [List.map_cons, latestRec, ih]
    cases h : latestRec as with
    | none => rfl
    | some b =>
      simp only [Option.map_some']
      rw [show (updIf i t b).created_at = b.created_at from updIf_created_at i t b,
        show (updIf i t a).created_at = a.created_at from updIf_created_at i t a]
      by_cases hc : b.created_at ≥ a.created_at
      · rw [if_pos hc, if_pos hc]
        rfl
      · rw [if_neg hc, if_neg hc]
        rfl

theorem latestMatch_map_updIf (s : Store) (i t : Nat) (ph pu : String) :
    latestMatch { s with otps := s.otps.map (updIf i t) } ph pu =
      (latestMatch s ph pu).map (updIf i t) := by
  unfold latestMatch
  show latestRec ((s.otps.map (updIf i t)).filter (fun r => keyMatch r ph pu)) = _
  rw [filter_map_updIf, latestRec_map_updIf]

theorem verify_ok_shape (s : Store) (now : Nat) (req : OTPVerifyRequest)
    (rec : OtpRec) (hl : latestMatch s req.phone req.purpose = some rec)
    (hc : rec.code = req.code) (he : ¬ now > rec.expires_at) :
    verify_otp s now req =
      (.ok ⟨true⟩, { s with otps := s.otps.map (updIf rec.id now) }) := by
  simp [verify_otp, hl, hc, he]

/-! ## C8: success-idempotency of verify_otp -/

/-- Claim C8: when the most recent record for `(phone, purpose)` holds the
supplied code and is unexpired, the first `verify_otp` succeeds and a
repeated call with the same arguments (while still unexpired) succeeds
again, the record's `verified` flag ending up (and remaining) `true`. -/
theorem verify_otp_success_idempotent (s : Store) (now now2 : Nat)
    (req : OTPVerifyRequest) (rec : OtpRec)
    (hl : latestMatch s req.phone req.purpose = some rec)
    (hc : rec.code = req.code)
    (he1 : ¬ now > rec.expires_at) (he2 : ¬ now2 > rec.expires_at) :
    ∃ s1 s2 rec2,
      verify_otp s now req = (.ok ⟨true⟩, s1) ∧
      verify_otp s1 now2 req = (.ok ⟨true⟩, s2) ∧
      latestMatch s2 req.phone req.purpose = some rec2 ∧
      rec2.verified = true ∧ rec2.code = req.code ∧
      rec2.expires_at = rec.expires_at := by
  have h1 := verify_ok_shape s now req rec hl hc he1
  have hl1 : latestMatch { s with otps := s.otps.map (updIf rec.id now) }
      req.phone req.purpose =
      some { rec with verified := true, updated_at := some now } := by
    rw [latestMatch_map_updIf, hl]
    show some (updIf rec.id now rec) = _
    unfold updIf
    rw [if_pos rfl]
  have h2 := verify_ok_shape { s with otps := s.otps.map (updIf rec.id now) }
    now2 req { rec with verified := true, updated_at := some now } hl1 hc he2
  refine ⟨{ s with otps := s.otps.map (updIf rec.id now) }, _,
    { rec with verified := true, updated_at := some now2 }, h1, h2, ?_, rfl,
    hc, rfl⟩
  rw [latestMatch_map_updIf, hl1]
  show some (updIf rec.id now2 { rec with verified := true, updated_at := some now }) = _
  unfold updIf
  rw [if_pos rfl]

/-- Witness for C8: the concrete record of `oneOtpStore`, verified at times
200 and then 300, both before the expiry 700. -/
theorem verify_otp_success_idempotent_witness :
    ∃ s1 s2 rec2,
      verify_otp oneOtpStore 200 ⟨"9999999999", "franchise", "123456"⟩ =
        (.ok ⟨true⟩, s1) ∧
      verify_otp s1 300 ⟨"9999999999", "franchise", "123456"⟩ =
        (.ok ⟨true⟩, s2) ∧
      latestMatch s2 "9999999999" "franchise" = some rec2 ∧
      rec2.verified = true ∧ rec2.code = "123456" ∧
      rec2.expires_at =
        (⟨0, "9999999999", "franchise", "123456", false, 700, 100,
          none⟩ : OtpRec).expires_at :=
  verify_otp_success_idempotent oneOtpStore 200 300
    ⟨"9999999999", "franchise", "123456"⟩
    ⟨0, "9999999999", "franchise", "123456", false, 700, 100, none⟩
    (by rfl) rfl (by decide) (by decide)

/-! ## C9: the mall file is persisted before the document, metadata exact -/

theorem verify_snd_fields (s : Store) (now : Nat) (req : OTPVerifyRequest) :
    (verify_otp s now req).2.franchiseDocs = s.franchiseDocs ∧
    (verify_otp s now req).2.mallDocs = s.mallDocs ∧
    (verify_otp s now req).2.files = s.files ∧
    (verify_otp s now req).2.events = s.events ∧
    (verify_otp s now req).2.nextId = s.nextId := by
  unfold verify_otp
  cases hl : latestMatch s req.phone req.purpose with
  | none => exact ⟨rfl, rfl, rfl, rfl, rfl⟩
  | some rec =>
    by_cases hc : rec.code ≠ req.code
    · simp [hc]
    · by_cases he : now > rec.expires_at
      · simp [hc, he]
      · simp [hc, he]

theorem mallPersist_file (s : Store) (now : Nat) (p : MallForm)
    (fp : UploadedFile) (hfp : p.floorplan = some fp) :
    mallPersist s now p =
      (.ok ⟨true, s.nextId,
        some ⟨toString now ++ "_" ++ fp.filename,
          "/uploads/" ++ (toString now ++ "_" ++ fp.filename),
          fp.content.length⟩⟩,
       { s with
          files := s.files ++
            [("public/uploads/" ++ (toString now ++ "_" ++ fp.filename),
              fp.content)],
          events := (s.events ++
            [.fileWrite
              ("public/uploads/" ++ (toString now ++ "_" ++ fp.filename))
              fp.content.length]) ++ [.docCreate "mallinquiry"],
          mallDocs := s.mallDocs ++
            [⟨s.nextId, now, p.contact_name, p.email, p.phone, p.mall_name,
              p.location_city, p.available_space_sqft, p.message,
              some ⟨toString now ++ "_" ++ fp.filename,
                "/uploads/" ++ (toString now ++ "_" ++ fp.filename),
                fp.content.length⟩⟩],
          nextId := s.nextId + 1 }) := by
  simp [mallPersist, hfp, saveFloorplan, createMallDocument]

theorem mallPersist_file_spec (s : Store) (now : Nat) (p : MallForm)
    (fp : UploadedFile) (resp : MallResponse) (s' : Store)
    (hfp : p.floorplan = some fp)
    (hok : mallPersist s now p = (.ok resp, s')) :
    ∃ meta : FileMeta,
      meta.filename = toString now ++ "_" ++ fp.filename ∧
      meta.path = "/uploads/" ++ meta.filename ∧
      meta.size = fp.content.length ∧
      resp.file = some meta ∧
      ("public/uploads/" ++ meta.filename, fp.content) ∈ s'.files ∧
      s'.events = s.events ++
        [.fileWrite ("public/uploads/" ++ meta.filename) fp.content.length,
         .docCreate "mallinquiry"] ∧
      (∃ doc : MallDoc, s'.mallDocs = s.mallDocs ++ [doc] ∧
        doc.floorplan = some meta ∧ doc.id = resp.id) := by
  rw [mallPersist_file s now p fp hfp] at hok
  simp only [Prod.mk.injEq, Except.ok.injEq] at hok
  obtain ⟨hresp, hs'⟩ := hok
  subst hresp
  subst hs'
  refine ⟨⟨toString now ++ "_" ++ fp.filename,
    "/uploads/" ++ (toString now ++ "_" ++ fp.filename), fp.content.length⟩,
    rfl, rfl, rfl, rfl, ?_, ?_, ?_⟩
  · simp
  · simp
  · exact ⟨⟨s.nextId, now, p.contact_name, p.email, p.phone, p.mall_name,
      p.location_city, p.available_space_sqft, p.message,
      some ⟨toString now ++ "_" ++ fp.filename,
        "/uploads/" ++ (toString now ++ "_" ++ fp.filename),
        fp.content.length⟩⟩, rfl, rfl, rfl⟩

/-- Claim C9: every successful mall submission that includes a file part
writes the file (with its byte content) to local storage BEFORE the
`mallinquiry` document is created; the stored filename is
`<timestamp>_<original-filename>`, and the `{filename, path, size}`
metadata recorded in the document and returned to the caller matches the
stored filename and the number of bytes written exactly. -/
theorem submit_mall_file_before_doc (s : Store) (now : Nat) (p : MallForm)
    (fp : UploadedFile) (resp : MallResponse) (s' : Store)
    (hfp : p.floorplan = some fp)
    (hok : submit_mall s now p = (.ok resp, s')) :
    ∃ meta : FileMeta,
      meta.filename = toString now ++ "_" ++ fp.filename ∧
      meta.path = "/uploads/" ++ meta.filename ∧
      meta.size = fp.content.length ∧
      resp.file = some meta ∧
      ("public/uploads/" ++ meta.filename, fp.content) ∈ s'.files ∧
      s'.events = s.events ++
        [.fileWrite ("public/uploads/" ++ meta.filename) fp.content.length,
         .docCreate "mallinquiry"] ∧
      (∃ doc : MallDoc, s'.mallDocs = s.mallDocs ++ [doc] ∧
        doc.floorplan = some meta ∧ doc.id = resp.id) := by
  unfold submit_mall at hok
  by_cases ht : truthy p.otp_code = true
  · rw [if_pos ht] at hok
    rcases hv : verify_otp s now ⟨p.phone, "mall", p.otp_code.getD ""⟩ with
      ⟨res, st2⟩
    rw [hv] at hok
    cases res with
    | error e => simp at hok
    | ok v =>
      have hfields := verify_snd_fields s now ⟨p.phone, "mall", p.otp_code.getD ""⟩
      rw [hv] at hfields
      have hmd : st2.mallDocs = s.mallDocs := hfields.2.1
      have hfl : st2.files = s.files := hfields.2.2.1
      have hev : st2.events = s.events := hfields.2.2.2.1
      obtain ⟨meta, e1, e2, e3, e4, e5, e6, doc, d1, d2, d3⟩ :=
        mallPersist_file_spec st2 now p fp resp s' hfp hok
      exact ⟨meta, e1, e2, e3, e4, e5, by rw [hev] at e6; exact e6,
        doc, by rw [hmd] at d1; exact d1, d2, d3⟩
  · rw [if_neg ht] at hok
    exact mallPersist_file_spec s now p fp resp s' hfp hok

/-- Witness for C9: a concrete mall form with a 3-byte floorplan file,
submitted at time 100 against the empty store. -/
theorem submit_mall_file_before_doc_witness :
    ∃ meta : FileMeta,
      meta.filename = toString 100 ++ "_" ++ "plan.png" ∧
      meta.path = "/uploads/" ++ meta.filename ∧
      meta.size = ([7, 8, 9] : List Nat).length ∧
      (⟨true, 0, some ⟨"100_plan.png", "/uploads/100_plan.png", 3⟩⟩ :
        MallResponse).file = some meta ∧
      ("public/uploads/" ++ meta.filename, ([7, 8, 9] : List Nat)) ∈
        (submit_mall emptyStore 100
          ⟨"C D", "c@d.com", "8888888888", "M", "Pune", 900, none, none,
            some ⟨"plan.png", [7, 8, 9]⟩⟩).2.files := by
  obtain ⟨meta, e1, e2, e3, e4, e5, e6, hdoc⟩ :=
    submit_mall_file_before_doc emptyStore 100
      ⟨"C D", "c@d.com", "8888888888", "M", "Pune", 900, none, none,
        some ⟨"plan.png", [7, 8, 9]⟩⟩
      ⟨"plan.png", [7, 8, 9]⟩
      ⟨true, 0, some ⟨"100_plan.png", "/uploads/100_plan.png", 3⟩⟩
      (submit_mall emptyStore 100
        ⟨"C D", "c@d.com", "8888888888", "M", "Pune", 900, none, none,
          some ⟨"plan.png", [7, 8, 9]⟩⟩).2
      rfl (by rfl)
  exact ⟨meta, e1, e2, e3, e4, e5⟩

end Immerzo
